import Mathlib

/-!
Verification of the size-padding heuristic, the upscale heuristic and the
batch runner of `src/app.py` (an SVG → EPS/JPG converter GUI).

Modelling conventions for the shallow embedding:
* File sizes are natural numbers of bytes; a file is identified with its size
  since the padding code only reads and appends bytes.
* Python numbers: `0.5 * 1024 * 1024` is the integral float `524288.0`; it is
  embedded as the natural number `524288`.  Python's true division `/` on the
  raster path is embedded as exact division in `ℚ`: there `scale` is the
  ceiling of `8000/dim`, and for `dim ≤ 8000` the quotient is at least
  `1/8000` away from any non-attained integer, far beyond double rounding
  error, while for `dim > 8000` both the float and the rational ceiling are 1,
  so the rational ceiling equals the float one.  The progress computation
  `int(i/total*100)` enjoys no such safety margin (IEEE doubles give
  `int(29/50*100) = 57` though the exact floor is 58), so it is embedded with
  a bit-accurate binary64 model (`floatRound` below, round to nearest, ties to
  even), cross-checked against CPython on every `1 ≤ i ≤ total ≤ 60` and on
  samples up to `total = 123456`.
* `open(path, 'ab')` positions at end-of-file and, per Python semantics,
  creates an empty file when the path does not exist; the state of the output
  file before padding is `Option ℕ` (`none` = the external tool produced no
  file).
* The `while f.tell() < target_size` loop is embedded with an explicit fuel
  argument; `target_size` units of fuel always suffice because every
  iteration appends a block of `paddingBlockLen ≥ 1` bytes.
-/

/-- Constant `MIN_SIZE = 0.5 * 1024 * 1024` bytes (the Python value is the
integral float `524288.0`). -/
def MIN_SIZE : ℕ := 524288

/-- Constant `MAX_SIZE = 80 * 1024 * 1024` bytes. -/
def MAX_SIZE : ℕ := 80 * 1024 * 1024

/-- The fixed text that precedes the 1000 random alphanumeric characters in
one padding block: `"\n%% Padding to increase file size (ignore this): "`. -/
def paddingHeader : String := "\n%% Padding to increase file size (ignore this): "

/-- Byte length of one appended padding block: the header, 1000 random
alphanumeric (single-byte) characters, and a trailing newline. -/
def paddingBlockLen : ℕ := paddingHeader.length + 1000 + 1

/-- Padding target `target_size = max(MIN_SIZE, min(original_size * 2,
MAX_SIZE))` from `convert_to_eps`. -/
def eps_target (S : ℕ) : ℕ := max MIN_SIZE (min (S * 2) MAX_SIZE)

/-- The `while f.tell() < target_size: f.write(padding)` loop: starting from
`size` bytes, append whole `paddingBlockLen`-byte blocks while the size is
below `target`.  `fuel` bounds the number of iterations. -/
def padLoop : ℕ → ℕ → ℕ → ℕ
  | 0, _, size => size
  | fuel + 1, target, size =>
      if size < target then padLoop fuel target (size + paddingBlockLen) else size

/-- Final size of the output file after the padding step of `convert_to_eps`,
as a function of the size `S` the file has when opened.  Mirrors:
`padding_size = target_size - original_size; if padding_size > 0: while ...`.
The subtraction is carried out in `ℤ`, as in Python. -/
def eps_finalSize (S : ℕ) : ℕ :=
  let target := eps_target S
  let padding_size : ℤ := (target : ℤ) - (S : ℤ)
  if 0 < padding_size then padLoop target target S else S

/-- Size of the output file right after `open(eps_file, 'ab')`: the existing
size, or `0` when the external tool produced no file (append mode creates an
empty file). -/
def openAppendSize (produced : Option ℕ) : ℕ := produced.getD 0

/-- The padding step of `convert_to_eps` run against the state the external
subprocess left behind (`none` = no output file was produced): the size of
the `.eps` file when `convert_to_eps` returns. -/
def convert_to_eps_padded (produced : Option ℕ) : ℕ :=
  eps_finalSize (openAppendSize produced)

-- Basic facts about the padding loop.

theorem paddingBlockLen_eq : paddingBlockLen = 1050 := by decide

theorem padLoop_le_self (fuel target size : ℕ) : size ≤ padLoop fuel target size := by
  induction fuel generalizing size with
  | zero => simp [padLoop]
  | succ n ih =>
      simp only [padLoop]
      split
      · exact le_trans (Nat.le_add_right _ _) (ih _)
      · exact le_refl _

theorem padLoop_blocks (fuel target size : ℕ) :
    ∃ k : ℕ, padLoop fuel target size = size + k * paddingBlockLen := by
  induction fuel generalizing size with
  | zero => exact ⟨0, by simp [padLoop]⟩
  | succ n ih =>
      simp only [padLoop]
      split
      · obtain ⟨k, hk⟩ := ih (size + paddingBlockLen)
        exact ⟨k + 1, by rw [hk]; ring⟩
      · exact ⟨0, by simp⟩

theorem padLoop_reaches (fuel target size : ℕ)
    (h : target ≤ size + fuel * paddingBlockLen) :
    target ≤ padLoop fuel target size := by
  induction fuel generalizing size with
  | zero => simpa [padLoop] using h
  | succ n ih =>
      simp only [padLoop]
      split
      · exact ih _ (by rw [paddingBlockLen_eq] at *; omega)
      · omega

theorem eps_target_gt (S : ℕ) (h : S < MAX_SIZE) : S < eps_target S := by
  unfold eps_target MIN_SIZE MAX_SIZE at *
  omega

theorem eps_target_le (S : ℕ) (h : MAX_SIZE ≤ S) : eps_target S ≤ S := by
  unfold eps_target MIN_SIZE MAX_SIZE at *
  omega

theorem eps_finalSize_of_ge (S : ℕ) (h : eps_target S ≤ S) : eps_finalSize S = S := by
  unfold eps_finalSize
  have : ¬ (0 < (eps_target S : ℤ) - (S : ℤ)) := by omega
  simp [this]

theorem eps_finalSize_of_lt (S : ℕ) (h : S < eps_target S) :
    eps_target S ≤ eps_finalSize S ∧
      ∃ k : ℕ, eps_finalSize S = S + k * paddingBlockLen := by
  unfold eps_finalSize
  have hpos : 0 < (eps_target S : ℤ) - (S : ℤ) := by omega
  simp only [hpos, if_pos]
  constructor
  · apply padLoop_reaches
    have h1 : eps_target S ≤ eps_target S * paddingBlockLen :=
      Nat.le_mul_of_pos_right _ (by rw [paddingBlockLen_eq]; omega)
    omega
  · exact padLoop_blocks _ _ _

-- The JPG upscale heuristic of `convert_to_jpg`:
-- `scale_factor = math.ceil(max(8000/width, 8000/height)); scale_factor + 0.0`.

/-- The integer value `math.ceil(max(8000/width, 8000/height))` computed by
`convert_to_jpg` from the declared SVG dimensions (Python float division
embedded as exact division in `ℚ`). -/
def jpg_scale_int (w h : ℕ) : ℤ :=
  ⌈max ((8000 : ℚ) / (w : ℚ)) ((8000 : ℚ) / (h : ℚ))⌉

/-- The upscale factor passed to the rasterizer: `scale_factor + 0.0`, i.e.
the ceiling above converted to a (rational-valued) float. -/
def convert_to_jpg_scale (w h : ℕ) : ℚ := (jpg_scale_int w h : ℚ)

theorem jpg_scale_int_min (w h : ℕ) (hw : 0 < w) (hh : 0 < h) :
    jpg_scale_int w h = ⌈(8000 : ℚ) / (min w h : ℕ)⌉ := by
  unfold jpg_scale_int
  rcases le_total w h with hwh | hwh
  · have hle : (8000 : ℚ) / (h : ℚ) ≤ (8000 : ℚ) / (w : ℚ) := by
      have hw' : (0 : ℚ) < (w : ℚ) := by exact_mod_cast hw
      have hwh' : (w : ℚ) ≤ (h : ℚ) := by exact_mod_cast hwh
      gcongr
    rw [min_eq_left hwh, max_eq_left hle]
  · have hle : (8000 : ℚ) / (w : ℚ) ≤ (8000 : ℚ) / (h : ℚ) := by
      have hh' : (0 : ℚ) < (h : ℚ) := by exact_mod_cast hh
      have hwh' : (h : ℚ) ≤ (w : ℚ) := by exact_mod_cast hwh
      gcongr
    rw [min_eq_right hwh, max_eq_right hle]

-- The batch runner `ConversionThread.run`:
-- `for i, f in enumerate(files, 1): convert(f); progress_update.emit(int(i/len(files)*100))`
-- followed by `conversion_complete.emit()`.

/-- A notification delivered to the UI thread: either a progress percentage
(`progress_update.emit`) or the completion signal (`conversion_complete.emit`). -/
inductive Signal where
  | progress : ℤ → Signal
  | complete : Signal
deriving DecidableEq

/-- Fueled base-2 logarithm: halve `n` until it drops below 2.  With
`fuel ≥ n` this computes `⌊log2 n⌋` for `n ≥ 1`, since the number of halvings
of a positive number is at most the number itself. -/
def log2fuel : ℕ → ℕ → ℕ
  | 0, _ => 0
  | f + 1, n => if 2 ≤ n then log2fuel f (n / 2) + 1 else 0

/-- Floor of the base-2 logarithm of `n` (0 for `n = 0`). -/
def ilog2 (n : ℕ) : ℕ := log2fuel n n

/-- Correct rounding of the nonnegative rational `n / d` to an IEEE-754
binary64 value, returned exactly as a pair `(m, e)` denoting `m * 2^e`:
round to nearest, ties to even, with the subnormal quantum `2^-1074` below
`2^-1022`; `(0, 0)` for `n = 0` (and arbitrarily for the unreachable
`d = 0`).  Overflow to infinity is not modelled, as every quotient this
development evaluates is at most 100. -/
def floatRound (n d : ℕ) : ℕ × ℤ :=
  if n = 0 then (0, 0) else if d = 0 then (0, 0) else
  let a := ilog2 n
  let b := ilog2 d
  let g : ℤ := (a : ℤ) - (b : ℤ)
  -- binade: e0 = ⌊log2 (n/d)⌋ is g when n/d ≥ 2^g and g - 1 otherwise,
  -- since 2^(g-1) < n/d < 2^(g+1)
  let e0 : ℤ := if (if 0 ≤ g then d * 2 ^ g.toNat ≤ n else d ≤ n * 2 ^ (-g).toNat)
    then g else g - 1
  -- ulp exponent: 53-bit significand in the normal range, fixed quantum below
  let k : ℤ := if -1022 ≤ e0 then e0 - 52 else -1074
  -- m0 = ⌊(n/d) / 2^k⌋, with the remainder r against D deciding the rounding
  let ND : ℕ × ℕ := if 0 ≤ k then (n, d * 2 ^ k.toNat) else (n * 2 ^ (-k).toNat, d)
  let m0 := ND.1 / ND.2
  let r := ND.1 % ND.2
  let m := if ND.2 < 2 * r then m0 + 1
    else if 2 * r < ND.2 then m0
    else if m0 % 2 = 0 then m0 else m0 + 1
  (m, k)

/-- Truncation toward zero (Python `int(...)`) of the nonnegative binary64
value `m * 2^e`. -/
def truncFloat (m : ℕ) (e : ℤ) : ℤ :=
  if 0 ≤ e then ((m * 2 ^ e.toNat : ℕ) : ℤ) else ((m / 2 ^ (-e).toNat : ℕ) : ℤ)

/-- The progress value emitted after the `i`-th file (1-based) of `total`:
Python `int(i / total * 100)` in IEEE-754 double arithmetic — `i / total`
correctly rounded to binary64 (CPython's int/int true division is correctly
rounded), multiplied by the exact constant 100 and correctly rounded again,
then truncated toward zero.  An exact-rational floor would be unfaithful:
Python yields 57 for `int(29/50*100)` although the exact floor is 58. -/
def progressValue (i total : ℕ) : ℤ :=
  let q := floatRound i total
  let p := if 0 ≤ q.2 then floatRound (100 * q.1 * 2 ^ q.2.toNat) 1
    else floatRound (100 * q.1) (2 ^ (-q.2).toNat)
  truncFloat p.1 p.2

/-- The ordered sequence of signals `ConversionThread.run` emits for a batch
(assuming each per-file conversion returns normally): one progress update per
file, then exactly one completion signal. -/
def threadRun (files : List String) : List Signal :=
  (List.range files.length).map
      (fun i => Signal.progress (progressValue (i + 1) files.length))
    ++ [Signal.complete]

-- `os.path.splitext` (POSIX flavour), used to derive the output paths
-- `<stem>.eps` / `<stem>.jpg` from the input path.

/-- Python `str.rfind` on a list of characters: index of the last occurrence,
or `-1` when absent. -/
def rfindIdx (l : List Char) (c : Char) : ℤ :=
  match l.reverse.findIdx? (fun x => x = c) with
  | some j => (l.length : ℤ) - 1 - (j : ℤ)
  | none => -1

/-- POSIX `os.path.splitext`: split at the last dot that comes after the last
path separator, unless every character between the separator and that dot is
itself a dot (so that dotfiles like `.bashrc` keep an empty extension). -/
def splitext (p : String) : String × String :=
  let chars := p.data
  let sepIndex := rfindIdx chars '/'
  let dotIndex := rfindIdx chars '.'
  if sepIndex < dotIndex then
    if ((chars.drop (sepIndex + 1).toNat).take (dotIndex - (sepIndex + 1)).toNat).any
        (fun ch => ch ≠ '.') then
      (⟨chars.take dotIndex.toNat⟩, ⟨chars.drop dotIndex.toNat⟩)
    else (p, "")
  else (p, "")

/-- The output path `convert_to_jpg` returns: `os.path.splitext(f)[0] + ".jpg"`. -/
def convert_to_jpg_path (svg_file : String) : String := (splitext svg_file).1 ++ ".jpg"

/-- Model of `convert_to_jpg` with the body of its `try` block abstracted as an
outcome: the whole body (dimension reading, rasterization, encoding) sits
inside `try ... except Exception`, so the function returns the derived path
and only the printed log line depends on the outcome. -/
def convert_to_jpg_model (svg_file : String) (body : Except String Unit) :
    String × String :=
  let jpg_file := convert_to_jpg_path svg_file
  match body with
  | Except.ok _ =>
      (jpg_file, "Conversion to JPG successful: " ++ svg_file ++ " -> " ++ jpg_file)
  | Except.error e =>
      (jpg_file, "JPG Conversion failed for " ++ svg_file ++ ": " ++ e)

-- Claim theorems.

/-- Claim C1: for every starting file size `S`, `convert_to_eps` computes the
padding target as `clamp(2*S, MIN_SIZE, MAX_SIZE)` with `MIN_SIZE = 0.5*1024*1024`
and `MAX_SIZE = 80*1024*1024` bytes, and, whenever the target exceeds `S`, it
appends whole padding blocks until the file size is at least the target. -/
theorem eps_padding_target_correct (S : ℕ) (h : S < eps_target S) :
    eps_target S = max MIN_SIZE (min (2 * S) MAX_SIZE)
    ∧ MIN_SIZE = 524288 ∧ MAX_SIZE = 83886080
    ∧ (∃ k : ℕ, eps_finalSize S = S + k * paddingBlockLen)
    ∧ eps_target S ≤ eps_finalSize S := by
  obtain ⟨hge, hblocks⟩ := eps_finalSize_of_lt S h
  exact ⟨by unfold eps_target; rw [Nat.mul_comm], by decide, by decide, hblocks, hge⟩

/-- Witness for C1, at starting size `S = 0`. -/
theorem eps_padding_target_correct_witness :
    0 < eps_target 0
    ∧ (eps_target 0 = max MIN_SIZE (min (2 * 0) MAX_SIZE)
      ∧ MIN_SIZE = 524288 ∧ MAX_SIZE = 83886080
      ∧ (∃ k : ℕ, eps_finalSize 0 = 0 + k * paddingBlockLen)
      ∧ eps_target 0 ≤ eps_finalSize 0) :=
  ⟨by decide, eps_padding_target_correct 0 (by decide)⟩

/-- Claim C2: for positive declared width and height, `convert_to_jpg`
computes the upscale factor as `ceil(max(8000/width, 8000/height))` converted
to a float; in particular for width 100 and height 4000 the factor is 80. -/
theorem jpg_scale_ceil_formula (w h : ℕ) (hw : 0 < w) (hh : 0 < h) :
    convert_to_jpg_scale w h
      = ((⌈max ((8000 : ℚ) / (w : ℚ)) ((8000 : ℚ) / (h : ℚ))⌉ : ℤ) : ℚ)
    ∧ convert_to_jpg_scale 100 4000 = 80 :=
  ⟨rfl, by norm_num [convert_to_jpg_scale, jpg_scale_int]⟩

/-- Witness for C2, at width 100 and height 4000. -/
theorem jpg_scale_ceil_formula_witness :
    0 < 100 ∧ 0 < 4000
    ∧ (convert_to_jpg_scale 100 4000
        = ((⌈max ((8000 : ℚ) / ((100 : ℕ) : ℚ)) ((8000 : ℚ) / ((4000 : ℕ) : ℚ))⌉ : ℤ) : ℚ)
      ∧ convert_to_jpg_scale 100 4000 = 80) :=
  ⟨by decide, by decide, jpg_scale_ceil_formula 100 4000 (by decide) (by decide)⟩

set_option maxRecDepth 4000 in
/-- Claim C4 counterexample: when the external subprocess produces no output
file (`produced = none`), the padding step of `convert_to_eps` does not error:
`open(eps_file, 'ab')` creates a new empty file and the loop pads it to
525000 bytes (which is at least `MIN_SIZE`), so a brand-new file is created
and padded rather than the step raising. -/
theorem eps_missing_output_cex :
    convert_to_eps_padded none = 525000 ∧ MIN_SIZE ≤ convert_to_eps_padded none := by
  have h1 : convert_to_eps_padded none = 525000 := by decide
  exact ⟨h1, by rw [h1]; decide⟩

/-- Claim C4 (amended): when the external subprocess produces no output file,
the padding step of `convert_to_eps` does not raise: opening in append mode
creates a new empty file, which is then padded like a size-0 file, ending at
least `MIN_SIZE` bytes long, so the batch continues past the bad input. -/
theorem eps_missing_output_padded :
    convert_to_eps_padded none = eps_finalSize 0
    ∧ MIN_SIZE ≤ convert_to_eps_padded none
    ∧ 0 < convert_to_eps_padded none := by
  have h0 : (0 : ℕ) < eps_target 0 := by decide
  obtain ⟨hge, -⟩ := eps_finalSize_of_lt 0 h0
  have hmin : MIN_SIZE ≤ eps_target 0 := le_max_left _ _
  have h2 : MIN_SIZE ≤ eps_finalSize 0 := le_trans hmin hge
  exact ⟨rfl, h2, lt_of_lt_of_le (by decide) h2⟩

/-- Claim C5 counterexample: for declared width 8000 and height 4000 the
computed upscale factor is 2, not 1 (the code scales by the smaller
dimension, and the spec claims the value 1). -/
theorem jpg_scale_8000_4000_cex :
    convert_to_jpg_scale 8000 4000 = 2 ∧ (2 : ℚ) ≠ 1 :=
  ⟨by norm_num [convert_to_jpg_scale, jpg_scale_int], by norm_num⟩

/-- Claim C5 (amended): for positive declared width and height, the upscale
factor is the smallest positive integer `k` such that `k * min(width, height)`
reaches 8000 (the smaller dimension, not the larger, reaches the ceiling); in
particular for width 8000 and height 4000 the factor is 2. -/
theorem jpg_scale_least_for_min_dim (w h : ℕ) (hw : 0 < w) (hh : 0 < h) :
    0 < jpg_scale_int w h
    ∧ 8000 ≤ jpg_scale_int w h * ((min w h : ℕ) : ℤ)
    ∧ (∀ j : ℤ, 8000 ≤ j * ((min w h : ℕ) : ℤ) → jpg_scale_int w h ≤ j)
    ∧ convert_to_jpg_scale 8000 4000 = 2 := by
  have hm : 0 < min w h := lt_min hw hh
  have hmq : (0 : ℚ) < ((min w h : ℕ) : ℚ) := by exact_mod_cast hm
  rw [jpg_scale_int_min w h hw hh]
  refine ⟨?_, ?_, ?_, ?_⟩
  · exact Int.ceil_pos.mpr (div_pos (by norm_num) hmq)
  · have hle : (8000 : ℚ) / ((min w h : ℕ) : ℚ)
        ≤ ((⌈(8000 : ℚ) / ((min w h : ℕ) : ℚ)⌉ : ℤ) : ℚ) := Int.le_ceil _
    rw [div_le_iff hmq] at hle
    exact_mod_cast hle
  · intro j hj
    apply Int.ceil_le.mpr
    rw [div_le_iff hmq]
    exact_mod_cast hj
  · norm_num [convert_to_jpg_scale, jpg_scale_int]

/-- Witness for C5 (amended), at width 100 and height 4000. -/
theorem jpg_scale_least_for_min_dim_witness :
    0 < 100 ∧ 0 < 4000
    ∧ (0 < jpg_scale_int 100 4000
      ∧ 8000 ≤ jpg_scale_int 100 4000 * ((min 100 4000 : ℕ) : ℤ)
      ∧ (∀ j : ℤ, 8000 ≤ j * ((min 100 4000 : ℕ) : ℤ) → jpg_scale_int 100 4000 ≤ j)
      ∧ convert_to_jpg_scale 8000 4000 = 2) :=
  ⟨by decide, by decide, jpg_scale_least_for_min_dim 100 4000 (by decide) (by decide)⟩

/-- Claim C6 counterexample: at starting size `S = MAX_SIZE` (which lies in
the stated range `[0, MAX_SIZE]`), the padding step leaves the file at
exactly `MAX_SIZE` bytes, so the final size is not strictly greater than the
starting size. -/
theorem eps_padding_at_max_cex :
    eps_finalSize MAX_SIZE = MAX_SIZE ∧ ¬ MAX_SIZE < eps_finalSize MAX_SIZE := by
  have h := eps_finalSize_of_ge MAX_SIZE (eps_target_le MAX_SIZE le_rfl)
  exact ⟨h, by omega⟩

/-- Claim C6 (amended): for every starting size `S` in `[0, MAX_SIZE]`, the
padding step yields a final size at least `clamp(2*S, MIN_SIZE, MAX_SIZE)`;
the final size is strictly greater than `S` whenever `S < MAX_SIZE` (at
`S = MAX_SIZE` exactly, the target equals `S` and the file is unchanged). -/
theorem eps_padding_growth (S : ℕ) (h : S ≤ MAX_SIZE) :
    eps_target S ≤ eps_finalSize S ∧ (S < MAX_SIZE → S < eps_finalSize S) := by
  rcases lt_or_eq_of_le h with hlt | rfl
  · obtain ⟨hge, -⟩ := eps_finalSize_of_lt S (eps_target_gt S hlt)
    exact ⟨hge, fun _ => lt_of_lt_of_le (eps_target_gt S hlt) hge⟩
  · rw [eps_finalSize_of_ge MAX_SIZE (eps_target_le MAX_SIZE le_rfl)]
    exact ⟨eps_target_le MAX_SIZE le_rfl, fun hc => absurd hc (lt_irrefl MAX_SIZE)⟩

/-- Witness for C6 (amended), at starting size `S = 0`. -/
theorem eps_padding_growth_witness :
    0 ≤ MAX_SIZE
    ∧ (eps_target 0 ≤ eps_finalSize 0 ∧ (0 < MAX_SIZE → 0 < eps_finalSize 0)) :=
  ⟨Nat.zero_le _, eps_padding_growth 0 (Nat.zero_le _)⟩

/-- Claim C8: whenever the computed target `clamp(2*S, MIN_SIZE, MAX_SIZE)` is
at most the starting size `S` — in particular whenever `S ≥ MAX_SIZE` — the
padding step appends nothing and never truncates: the file size is unchanged
(the padding loop body is skipped, and append mode cannot shrink a file). -/
theorem eps_no_padding_when_oversized (S : ℕ)
    (h : eps_target S ≤ S ∨ MAX_SIZE ≤ S) : eps_finalSize S = S :=
  eps_finalSize_of_ge S (h.elim id (eps_target_le S))

/-- Witness for C8, at starting size 100000000 > `MAX_SIZE`. -/
theorem eps_no_padding_when_oversized_witness :
    (eps_target 100000000 ≤ 100000000 ∨ MAX_SIZE ≤ 100000000)
    ∧ eps_finalSize 100000000 = 100000000 :=
  ⟨Or.inr (by decide), eps_no_padding_when_oversized 100000000 (Or.inr (by decide))⟩

/-- Claim C3 counterexample: for a batch of 3 files, the progress value
emitted after the second file is `int(2/3 * 100) = 66`, whereas
`round(2/3 * 100) = 67`, so the runner does not emit the rounded value. -/
theorem thread_progress_not_round_cex :
    (threadRun ["a", "b", "c"])[1]? = some (Signal.progress 66)
    ∧ round (((2 : ℚ) / 3) * 100) = 67 ∧ (66 : ℤ) ≠ 67 := by
  refine ⟨by decide, ?_, by decide⟩
  rw [round_eq]
  norm_num

/-- Claim C3 (amended): for every non-empty batch, the runner emits, after the
`i`-th file (1-based) of `total`, the truncated value `int(i/total * 100)` as
computed in IEEE-754 double arithmetic (which need not equal
`round(i/total * 100)`), and after the last file exactly one completion
signal. -/
theorem thread_progress_truncated (files : List String) (hne : files ≠ []) :
    (∀ i : ℕ, i < files.length →
        (threadRun files)[i]?
          = some (Signal.progress (progressValue (i + 1) files.length)))
    ∧ (threadRun files)[files.length]? = some Signal.complete
    ∧ (threadRun files).length = files.length + 1
    ∧ (threadRun files).count Signal.complete = 1 := by
  unfold threadRun
  refine ⟨?_, ?_, ?_, ?_⟩
  · intro i hi
    rw [List.getElem?_append_left (by simpa using hi), List.getElem?_map,
        List.getElem?_range hi]
    rfl
  · rw [List.getElem?_append_right (by simp)]
    simp
  · simp
  · rw [List.count_append]
    have h0 : (List.count Signal.complete
        ((List.range files.length).map
          (fun i => Signal.progress (progressValue (i + 1) files.length)))) = 0 := by
      rw [List.count_eq_zero]
      simp
    rw [h0]
    simp

/-- Witness for C3 (amended), on a batch of two files. -/
theorem thread_progress_truncated_witness :
    (["a", "b"] : List String) ≠ []
    ∧ ((∀ i : ℕ, i < (["a", "b"] : List String).length →
          (threadRun ["a", "b"])[i]?
            = some (Signal.progress (progressValue (i + 1)
                (["a", "b"] : List String).length)))
      ∧ (threadRun ["a", "b"])[(["a", "b"] : List String).length]?
          = some Signal.complete
      ∧ (threadRun ["a", "b"]).length = (["a", "b"] : List String).length + 1
      ∧ (threadRun ["a", "b"]).count Signal.complete = 1) :=
  ⟨by simp, thread_progress_truncated ["a", "b"] (by simp)⟩

/-- Claim C7: `convert_to_jpg` catches every failure of its body (dimension
reading, rasterization, encoding), logs it, and still returns the output path
`<input stem>.jpg` derived from the input path, identical to the path
returned on success — so the batch proceeds and the caller cannot tell
success from failure by the return value. -/
theorem jpg_error_policy (f e : String) (body : Except String Unit) :
    (convert_to_jpg_model f body).1 = convert_to_jpg_path f
    ∧ convert_to_jpg_path f = (splitext f).1 ++ ".jpg"
    ∧ (convert_to_jpg_model f body).1 = (convert_to_jpg_model f (Except.ok ())).1
    ∧ (convert_to_jpg_model f (Except.error e)).2
        = "JPG Conversion failed for " ++ f ++ ": " ++ e := by
  cases body <;> exact ⟨rfl, rfl, rfl, rfl⟩

/-- Claim C9: a batch of exactly 4 files emits the progress values
25, 50, 75, 100 in that order, followed by exactly one completion signal. -/
theorem thread_progress_four_files (files : List String)
    (h4 : files.length = 4) :
    threadRun files
      = [Signal.progress 25, Signal.progress 50, Signal.progress 75,
         Signal.progress 100, Signal.complete] := by
  unfold threadRun
  rw [h4]
  decide

/-- Witness for C9, on a concrete batch of 4 files. -/
theorem thread_progress_four_files_witness :
    (["a", "b", "c", "d"] : List String).length = 4
    ∧ threadRun ["a", "b", "c", "d"]
      = [Signal.progress 25, Signal.progress 50, Signal.progress 75,
         Signal.progress 100, Signal.complete] :=
  ⟨rfl, thread_progress_four_files ["a", "b", "c", "d"] rfl⟩

/-- Claim C10: an empty batch emits zero progress updates and exactly one
completion signal, without any error: the per-file loop body (and with it the
division by `len(files)`) is never reached. -/
theorem thread_empty_batch :
    threadRun ([] : List String) = [Signal.complete] := rfl
